import Mathlib

/-!
Verification of the Digital Egiz ML service core
(`examples/ml-service/main.py`).

The embedding is shallow:

* JSON values (the payloads moved through both channels) are the inductive
  `Json`; objects are association lists looked up first-key-first, which is
  adequate here because every input considered has distinct keys.
* Python exceptions that cross the boundaries of `make_prediction` are the
  inductive `PyExn`; a function that can raise returns `Except PyExn _`.
* The model registry `MODELS` maps identifiers to capabilities; the two
  concrete entries call `np.random`, so the registry is parametrised by the
  two capability functions and a capability is any `Json → Except PyExn Json`.
* `uuid.uuid4()` and `datetime.now().isoformat()` are environment-supplied
  strings, passed as explicit arguments (`uuid`, `ts`).
* One Kafka message is a `RawMsg`: either bytes that `json.loads` rejects
  (`undecodable`) or the decoded payload. `processMessage` is the body of the
  `async for` loop in `consume_kafka_messages`: the surrounding
  `try/except Exception` is the `Option`; `none` means the iteration logged
  and continued without publishing, `some r` means `r` was published to the
  egress topic. `consumeLoop` folds it over a finite message sequence,
  handing each iteration its fresh uuid/timestamp from the supplies
  `uuidAt`/`tsAt`.
* `start_kafka` is summarised by which handles survive it, and the shutdown
  hook by the list of lifecycle actions it performs.
-/

namespace MLService

/-- JSON values as decoded by `json.loads` / produced by pydantic `.dict()`.
Python `None` is `Json.null`; numbers are collapsed to `Int`, which is faithful
for every value these claims touch (only truthiness and equality are used). -/
inductive Json where
  | null : Json
  | bool : Bool → Json
  | num : Int → Json
  | str : String → Json
  | obj : List (String × Json) → Json

/-- Python truthiness (`if not x`) on JSON values. -/
def Json.truthy : Json → Bool
  | .null => false
  | .bool b => b
  | .num n => n != 0
  | .str s => s != ""
  | .obj fields => !fields.isEmpty

/-- Whether a JSON value is Python `None`. -/
def Json.isNull : Json → Bool
  | .null => true
  | _ => false

/-- `payload.get(key, default)`: the value of the first matching key, or the
default when the key is absent. -/
def getField : List (String × Json) → String → Json → Json
  | [], _, d => d
  | (k, v) :: rest, key, d => if k == key then v else getField rest key d

/-- Python exceptions observable at the boundaries of this core:
`fastapi.HTTPException(status_code, detail)` and any other exception raised by
plugged-in model code (carried with its message). -/
inductive PyExn where
  | httpException (statusCode : Nat) (detail : String)
  | exc (message : String)
deriving DecidableEq

/-- A model capability: the `predict` callable stored in `MODELS`. It may
raise (`Except.error`). -/
def Capability : Type := Json → Except PyExn Json

/-- The model registry: `MODELS`, a mapping from identifier to capability. -/
def Registry : Type := List (String × Capability)

/-- The `PredictionOutput` pydantic model. `model_id` is kept as `Json`
because the Kafka path feeds `payload.get("model_id")` (an arbitrary JSON
value) straight into `make_prediction`; `metadata` is `Json` with `null` for
Python `None`. -/
structure PredictionOutput where
  prediction_id : String
  model_id : Json
  predictions : Json
  timestamp : String
  input_features : Json
  metadata : Json

/-- The `PredictionInput` pydantic model of the API channel. `metadata`
defaults to `None` (`Json.null`) when the request body omits it. -/
structure PredictionInput where
  model_id : String
  features : Json
  metadata : Json := Json.null

/-- `model_id not in MODELS` / `MODELS[model_id]`: only a string key can be
present, since the registry's keys are strings. -/
def lookupModel (reg : Registry) (mid : Json) : Option Capability :=
  match mid with
  | .str s => (reg.find? (fun entry => entry.1 == s)).map (fun entry => entry.2)
  | _ => none

/-- The detail string of the 404 raised for an unknown model. -/
def notFoundDetail (mid : Json) : String :=
  match mid with
  | .str s => "Model " ++ s ++ " not found"
  | _ => "Model not found"

/-- `make_prediction(model_id, features, metadata)`: raise `HTTPException 404`
when the model is unknown, otherwise invoke the capability (whose exceptions
propagate raw) and wrap its result, echoing `features` and `metadata` and
stamping the environment-supplied uuid and timestamp. -/
def make_prediction (reg : Registry) (model_id : Json) (features : Json)
    (metadata : Json) (uuid ts : String) : Except PyExn PredictionOutput :=
  match lookupModel reg model_id with
  | none => .error (.httpException 404 (notFoundDetail model_id))
  | some cap =>
    match cap features with
    | .error e => .error e
    | .ok predictions =>
      .ok { prediction_id := uuid, model_id := model_id, predictions := predictions,
            timestamp := ts, input_features := features, metadata := metadata }

/-- The `POST /predict/{model_id}` handler: overwrite the body's `model_id`
with the path's, then dispatch. -/
def predict (reg : Registry) (path_model_id : String) (data : PredictionInput)
    (uuid ts : String) : Except PyExn PredictionOutput :=
  let d := { data with model_id := path_model_id }
  make_prediction reg (Json.str path_model_id) d.features d.metadata uuid ts

/-- One inbound Kafka message, as seen after `json.loads(msg.value.decode())`
is attempted: either the decode raised, or it produced a payload. -/
inductive RawMsg where
  | undecodable : RawMsg
  | decoded (payload : Json) : RawMsg

/-- The extraction-and-validation prefix of one loop iteration:
`payload.get("model_id")`, `payload.get("features", {})`,
`payload.get("metadata", {})`, then `if not model_id or not features:
continue`. A non-object payload makes the `.get` calls raise, which the
iteration's `except` absorbs. `none` means no dispatch happens. -/
def extractRequest (payload : Json) : Option (Json × Json × Json) :=
  match payload with
  | .obj fields =>
    let model_id := getField fields "model_id" Json.null
    let features := getField fields "features" (Json.obj [])
    let metadata := getField fields "metadata" (Json.obj [])
    if !model_id.truthy || !features.truthy then none
    else some (model_id, features, metadata)
  | _ => none

/-- The body of the `async for msg in consumer` loop for a single message:
decode, extract, dispatch, and publish the serialized result when the
producer handle is set. The iteration-wide `try/except Exception` makes every
failure return `none` (logged, loop continues); `some r` means `r` was
published to the egress topic. -/
def processMessage (reg : Registry) (producerSet : Bool) (msg : RawMsg)
    (uuid ts : String) : Option PredictionOutput :=
  match msg with
  | .undecodable => none
  | .decoded payload =>
    match extractRequest payload with
    | none => none
    | some (model_id, features, metadata) =>
      match make_prediction reg model_id features metadata uuid ts with
      | .error _ => none
      | .ok result => if producerSet then some result else none

/-- The consume loop over a finite inbound sequence: the list of messages
published to the egress topic, in order. Iteration `i` draws its fresh uuid
and timestamp from the supplies. -/
def consumeLoop (reg : Registry) (producerSet : Bool) (uuidAt tsAt : Nat → String) :
    List RawMsg → Nat → List PredictionOutput
  | [], _ => []
  | msg :: rest, i =>
    match processMessage reg producerSet msg (uuidAt i) (tsAt i) with
    | some r => r :: consumeLoop reg producerSet uuidAt tsAt rest (i + 1)
    | none => consumeLoop reg producerSet uuidAt tsAt rest (i + 1)

/-- The `HealthResponse` pydantic model. -/
structure HealthResponse where
  status : String
  version : String
  models : List String
deriving DecidableEq

/-- The `GET /health` handler. It reads no Kafka state. -/
def health_check (reg : Registry) : HealthResponse :=
  { status := "healthy", version := "0.1.0", models := reg.map (fun e => e.1) }

/-- The `GET /models` handler. -/
def get_models (reg : Registry) : List String :=
  reg.map (fun e => e.1)

/-- The concrete `MODELS` registry, parametrised by the two capabilities
(their bodies call `np.random`, so they are nondeterministic stand-ins). -/
def MODELS (anomalyCap maintenanceCap : Capability) : Registry :=
  [("anomaly_detection", anomalyCap), ("predictive_maintenance", maintenanceCap)]

/-- What survives `start_kafka()`: whether the producer handle is set (on
failure the `except` stops and clears it) and whether the consumer task was
spawned (`asyncio.create_task` runs only after `producer.start()` succeeds). -/
structure KafkaStartState where
  kafka_producer : Bool
  consumerLoopSpawned : Bool
deriving DecidableEq

/-- `start_kafka()` summarised by broker reachability: on success both the
producer and the consumer task exist; on failure the exception is logged, the
producer handle is cleared, and no consumer task is spawned. -/
def start_kafka (brokerReachable : Bool) : KafkaStartState :=
  if brokerReachable then { kafka_producer := true, consumerLoopSpawned := true }
  else { kafka_producer := false, consumerLoopSpawned := false }

/-- Lifecycle actions a shutdown hook could perform: signalling the consume
loop to stop, and closing the producer. -/
inductive ShutAction where
  | signalConsumerStop
  | closeProducer
deriving DecidableEq, BEq

/-- The `shutdown_event` hook as the sequence of lifecycle actions it
performs: `if kafka_producer: await kafka_producer.stop()` and nothing else —
in particular it never touches the consumer (the task created in
`start_kafka` is never stored in the `kafka_consumer_task` global, so nothing
can signal it). -/
def shutdown_event (producerSet : Bool) : List ShutAction :=
  if producerSet then [ShutAction.closeProducer] else []

/-- A well-formed inbound message relative to a registry: it decodes, passes
the `model_id`/`features` checks, names a registered model, and that model's
capability succeeds on its features. Exactly the messages the loop publishes
a result for (when the producer is up). -/
def isGoodMsg (reg : Registry) (msg : RawMsg) : Bool :=
  match msg with
  | .undecodable => false
  | .decoded payload =>
    match extractRequest payload with
    | none => false
    | some (model_id, features, _) =>
      match lookupModel reg model_id with
      | none => false
      | some cap => (cap features).isOk

/-- The channel-independent part of a result envelope: everything except the
per-call `prediction_id` and `timestamp`. -/
def shapeOf (r : PredictionOutput) : Json × Json × Json × Json :=
  (r.model_id, r.predictions, r.input_features, r.metadata)

/-- A deterministic stand-in capability that always succeeds. -/
def constCap (result : Json) : Capability := fun _ => Except.ok result

/-- A stand-in capability that always raises. -/
def failCap (message : String) : Capability :=
  fun _ => Except.error (PyExn.exc message)

/-- A concrete one-model registry used to instantiate the theorems. -/
def demoReg : Registry :=
  [("anomaly_detection", constCap (Json.obj [("anomaly_score", Json.num 0)]))]

/-- A concrete registry whose only model always raises. -/
def failReg : Registry := [("failing_model", failCap "boom")]

/-! ## Helper lemmas about the dispatcher -/

/-- A successful dispatch decomposes: the model was registered, its capability
succeeded, and the result is exactly the echoing envelope. -/
theorem make_prediction_ok (reg : Registry) (mid features metadata : Json)
    (uuid ts : String) (r : PredictionOutput)
    (h : make_prediction reg mid features metadata uuid ts = Except.ok r) :
    ∃ cap preds, lookupModel reg mid = some cap ∧ cap features = Except.ok preds ∧
      r = { prediction_id := uuid, model_id := mid, predictions := preds,
            timestamp := ts, input_features := features, metadata := metadata } := by
  unfold make_prediction at h
  split at h
  · cases h
  · rename_i cap hl
    split at h
    · cases h
    · rename_i preds hc
      cases h
      exact ⟨cap, preds, hl, hc, rfl⟩

/-- The `model_id` field of any dispatched envelope is the dispatched id. -/
theorem make_prediction_ok_model_id (reg : Registry) (mid features metadata : Json)
    (uuid ts : String) (r : PredictionOutput)
    (h : make_prediction reg mid features metadata uuid ts = Except.ok r) :
    r.model_id = mid := by
  obtain ⟨cap, preds, -, -, hr⟩ := make_prediction_ok reg mid features metadata uuid ts r h
  rw [hr]

/-- A `some` answer from the registry lookup means the id is a string key
present in the registry. -/
theorem lookupModel_some (reg : Registry) (mid : Json) (cap : Capability)
    (h : lookupModel reg mid = some cap) :
    ∃ s : String, mid = Json.str s ∧ s ∈ reg.map Prod.fst := by
  unfold lookupModel at h
  cases mid with
  | str s =>
    refine ⟨s, rfl, ?_⟩
    rcases Option.map_eq_some'.mp h with ⟨entry, hfind, -⟩
    have hmem := List.mem_of_find?_eq_some hfind
    have hpred := List.find?_some hfind
    have heq : entry.1 = s := by simpa using hpred
    exact List.mem_map.mpr ⟨entry, hmem, heq⟩
  | null => cases h
  | bool b => cases h
  | num n => cases h
  | obj fields => cases h

/-! ## Claim theorems -/

/-- C3: for every `modelId` not present in the registry, dispatch fails with
the 404 `HTTPException` (the code's `ModelNotFound`) and constructs no
`PredictionResult`; consequently the `model_id` of every constructed result
is a key present in the registry at call time. -/
theorem dispatch_unknown_model_short_circuits (reg : Registry)
    (mid features metadata : Json) (uuid ts : String) :
    (lookupModel reg mid = none →
      make_prediction reg mid features metadata uuid ts =
        Except.error (PyExn.httpException 404 (notFoundDetail mid))) ∧
    (∀ r : PredictionOutput,
      make_prediction reg mid features metadata uuid ts = Except.ok r →
      ∃ s : String, r.model_id = Json.str s ∧ s ∈ reg.map Prod.fst) := by
  constructor
  · intro h
    simp [make_prediction, h]
  · intro r h
    obtain ⟨cap, preds, hl, -, hr⟩ :=
      make_prediction_ok reg mid features metadata uuid ts r h
    obtain ⟨s, hs, hmem⟩ := lookupModel_some reg mid cap hl
    exact ⟨s, by rw [hr, hs], hmem⟩

/-- Witness for C3 at the concrete registry and an unknown id. -/
theorem dispatch_unknown_model_short_circuits_witness :
    make_prediction demoReg (Json.str "missing_model") (Json.obj [("x", Json.num 1)])
      Json.null "u" "t" =
      Except.error (PyExn.httpException 404 (notFoundDetail (Json.str "missing_model"))) :=
  (dispatch_unknown_model_short_circuits demoReg (Json.str "missing_model")
    (Json.obj [("x", Json.num 1)]) Json.null "u" "t").1 rfl

/-- C4: for every registered model whose capability succeeds, dispatch returns
an envelope echoing `model_id`, `features` and `metadata` verbatim, stamped
with the fresh uuid and timestamp. -/
theorem dispatch_echo_invariant (reg : Registry) (mid features metadata preds : Json)
    (cap : Capability) (uuid ts : String)
    (hl : lookupModel reg mid = some cap)
    (hc : cap features = Except.ok preds) :
    make_prediction reg mid features metadata uuid ts =
      Except.ok { prediction_id := uuid, model_id := mid, predictions := preds,
                  timestamp := ts, input_features := features, metadata := metadata } := by
  simp [make_prediction, hl, hc]

/-- Witness for C4 at the concrete registry. -/
theorem dispatch_echo_invariant_witness :
    make_prediction demoReg (Json.str "anomaly_detection") (Json.obj [("x", Json.num 1)])
      (Json.obj [("source", Json.str "test")]) "uuid-1" "ts-1" =
      Except.ok { prediction_id := "uuid-1", model_id := Json.str "anomaly_detection",
                  predictions := Json.obj [("anomaly_score", Json.num 0)],
                  timestamp := "ts-1", input_features := Json.obj [("x", Json.num 1)],
                  metadata := Json.obj [("source", Json.str "test")] } :=
  dispatch_echo_invariant demoReg (Json.str "anomaly_detection")
    (Json.obj [("x", Json.num 1)]) (Json.obj [("source", Json.str "test")])
    (Json.obj [("anomaly_score", Json.num 0)])
    (constCap (Json.obj [("anomaly_score", Json.num 0)])) "uuid-1" "ts-1" rfl rfl

/-- C5 (amended): when a registered model's capability raises, dispatch
propagates that failure to its caller unchanged — the raw exception, not a
`PredictionExecutionError` wrapper (no such wrapper exists in the code) — and
performs no retry; the API channel's 500 comes from the framework's default
unhandled-exception handling outside this core. -/
theorem dispatch_propagates_capability_failure_raw (reg : Registry)
    (mid features metadata : Json) (cap : Capability) (e : PyExn) (uuid ts : String)
    (hl : lookupModel reg mid = some cap)
    (hc : cap features = Except.error e) :
    make_prediction reg mid features metadata uuid ts = Except.error e := by
  simp [make_prediction, hl, hc]

/-- Counterexample for C5 as stated: the error that leaves `make_prediction`
is byte-identical to the raw exception the capability raised — there is no
`PredictionExecutionError` wrapping step. -/
theorem capability_failure_not_wrapped_cex :
    failCap "boom" (Json.obj [("x", Json.num 1)]) = Except.error (PyExn.exc "boom") ∧
    make_prediction failReg (Json.str "failing_model") (Json.obj [("x", Json.num 1)])
      Json.null "u" "t" = Except.error (PyExn.exc "boom") :=
  ⟨rfl, rfl⟩

/-- Witness for the amended C5 at the concrete failing registry. -/
theorem dispatch_propagates_capability_failure_raw_witness :
    make_prediction failReg (Json.str "failing_model") (Json.obj []) Json.null "u" "t" =
      Except.error (PyExn.exc "boom") :=
  dispatch_propagates_capability_failure_raw failReg (Json.str "failing_model")
    (Json.obj []) Json.null (failCap "boom") (PyExn.exc "boom") "u" "t" rfl rfl

/-- C6 (evaluated at the failing configuration): the shutdown hook closes the
producer when it is set, but never performs the consumer-stop signal the spec
requires — the consumer task is not even stored, so nothing can signal it. -/
theorem shutdown_never_signals_consumer :
    ((shutdown_event true).contains ShutAction.closeProducer = true) ∧
    ((shutdown_event true).contains ShutAction.signalConsumerStop = false) ∧
    ((shutdown_event false).contains ShutAction.signalConsumerStop = false) :=
  ⟨rfl, rfl, rfl⟩

/-- C7: a bus start failure clears the producer handle and spawns no consumer
task, and `GET /health` (which reads no Kafka state) still reports
`"healthy"` with the registered model identifiers. -/
theorem api_channel_survives_bus_start_failure (anomalyCap maintenanceCap : Capability) :
    start_kafka false = { kafka_producer := false, consumerLoopSpawned := false } ∧
    health_check (MODELS anomalyCap maintenanceCap) =
      { status := "healthy", version := "0.1.0",
        models := ["anomaly_detection", "predictive_maintenance"] } :=
  ⟨rfl, rfl⟩

/-- C8: whenever the `POST /predict/{model_id}` handler returns a result, its
`model_id` field is the path's id, regardless of the body's `model_id`. -/
theorem path_model_id_overrides_body (reg : Registry) (path_model_id : String)
    (data : PredictionInput) (uuid ts : String) (r : PredictionOutput)
    (h : predict reg path_model_id data uuid ts = Except.ok r) :
    r.model_id = Json.str path_model_id := by
  simp only [predict] at h
  exact make_prediction_ok_model_id _ _ _ _ _ _ _ h

/-- The envelope the API channel produces for the C8 witness request. -/
def c8Result : PredictionOutput :=
  { prediction_id := "u", model_id := Json.str "anomaly_detection",
    predictions := Json.obj [("anomaly_score", Json.num 0)], timestamp := "t",
    input_features := Json.obj [("x", Json.num 1)], metadata := Json.null }

/-- Witness for C8: a body carrying `model_id = "ignored"` still yields the
path's model id. -/
theorem path_model_id_overrides_body_witness :
    c8Result.model_id = Json.str "anomaly_detection" :=
  path_model_id_overrides_body demoReg "anomaly_detection"
    { model_id := "ignored", features := Json.obj [("x", Json.num 1)],
      metadata := Json.null } "u" "t" c8Result rfl

/-- C9: a decoded payload whose `features` is the empty mapping, or whose
`model_id` is absent or the empty string, is skipped before dispatch: no
dispatch occurs (`extractRequest` yields nothing) and nothing is published —
while the API channel does dispatch an empty-features request for a
registered model. -/
theorem bus_skips_empty_features (reg : Registry) (producerSet : Bool)
    (fields : List (String × Json)) (u t : String)
    (h : getField fields "features" (Json.obj []) = Json.obj [] ∨
         getField fields "model_id" Json.null = Json.null ∨
         getField fields "model_id" Json.null = Json.str "") :
    extractRequest (Json.obj fields) = none ∧
    processMessage reg producerSet (RawMsg.decoded (Json.obj fields)) u t = none ∧
    (∀ (mid : String) (cap : Capability) (preds : Json) (bodyMid : String)
        (md : Json) (u2 t2 : String),
      lookupModel reg (Json.str mid) = some cap →
      cap (Json.obj []) = Except.ok preds →
      ∃ r, predict reg mid
          { model_id := bodyMid, features := Json.obj [], metadata := md } u2 t2 =
          Except.ok r ∧ r.input_features = Json.obj []) := by
  have hcond : (!(getField fields "model_id" Json.null).truthy ||
      !(getField fields "features" (Json.obj [])).truthy) = true := by
    rcases h with h | h | h <;> rw [h] <;> simp [Json.truthy]
  have hext : extractRequest (Json.obj fields) = none := by
    simp [extractRequest, hcond]
  refine ⟨hext, by simp [processMessage, hext], ?_⟩
  intro mid cap preds bodyMid md u2 t2 hl hc
  refine ⟨{ prediction_id := u2, model_id := Json.str mid, predictions := preds,
            timestamp := t2, input_features := Json.obj [], metadata := md }, ?_, rfl⟩
  simp [predict, make_prediction, hl, hc]

/-- Witness for C9: an empty `features` mapping is skipped by the loop. -/
theorem bus_skips_empty_features_witness :
    extractRequest (Json.obj [("model_id", Json.str "anomaly_detection"),
      ("features", Json.obj [])]) = none ∧
    processMessage demoReg true (RawMsg.decoded (Json.obj
      [("model_id", Json.str "anomaly_detection"), ("features", Json.obj [])]))
      "u" "t" = none ∧
    (∀ (mid : String) (cap : Capability) (preds : Json) (bodyMid : String)
        (md : Json) (u2 t2 : String),
      lookupModel demoReg (Json.str mid) = some cap →
      cap (Json.obj []) = Except.ok preds →
      ∃ r, predict demoReg mid
          { model_id := bodyMid, features := Json.obj [], metadata := md } u2 t2 =
          Except.ok r ∧ r.input_features = Json.obj []) :=
  bus_skips_empty_features demoReg true
    [("model_id", Json.str "anomaly_detection"), ("features", Json.obj [])]
    "u" "t" (Or.inl rfl)

/-- With the producer handle unset, no iteration publishes anything. -/
theorem processMessage_producer_unset (reg : Registry) (msg : RawMsg) (u t : String) :
    processMessage reg false msg u t = none := by
  cases msg with
  | undecodable => rfl
  | decoded payload =>
    cases hext : extractRequest payload with
    | none => simp [processMessage, hext]
    | some triple =>
      obtain ⟨mid, features, md⟩ := triple
      cases hmk : make_prediction reg mid features md u t with
      | error e => simp [processMessage, hext, hmk]
      | ok r => simp [processMessage, hext, hmk]

/-- A well-formed message yields a published result when the producer is up. -/
theorem processMessage_of_good (reg : Registry) (msg : RawMsg) (u t : String)
    (h : isGoodMsg reg msg = true) :
    ∃ r, processMessage reg true msg u t = some r := by
  cases msg with
  | undecodable => simp [isGoodMsg] at h
  | decoded payload =>
    cases hext : extractRequest payload with
    | none => simp [isGoodMsg, hext] at h
    | some triple =>
      obtain ⟨mid, features, md⟩ := triple
      cases hl : lookupModel reg mid with
      | none => simp [isGoodMsg, hext, hl] at h
      | some cap =>
        cases hc : cap features with
        | error e => simp [isGoodMsg, hext, hl, hc, Except.isOk, Except.toBool] at h
        | ok preds =>
          refine ⟨{ prediction_id := u, model_id := mid, predictions := preds,
                    timestamp := t, input_features := features, metadata := md }, ?_⟩
          simp [processMessage, hext, make_prediction, hl, hc]

/-- A malformed message publishes nothing: the iteration's catch absorbs the
failure. -/
theorem processMessage_of_bad (reg : Registry) (msg : RawMsg) (u t : String)
    (h : isGoodMsg reg msg = false) :
    processMessage reg true msg u t = none := by
  cases msg with
  | undecodable => rfl
  | decoded payload =>
    cases hext : extractRequest payload with
    | none => simp [processMessage, hext]
    | some triple =>
      obtain ⟨mid, features, md⟩ := triple
      cases hl : lookupModel reg mid with
      | none => simp [processMessage, hext, make_prediction, hl]
      | some cap =>
        cases hc : cap features with
        | error e => simp [processMessage, hext, make_prediction, hl, hc]
        | ok preds =>
          exfalso
          simp [isGoodMsg, hext, hl, hc, Except.isOk, Except.toBool] at h

/-- A run over well-formed messages publishes one result per message. -/
theorem consumeLoop_length_all_good (reg : Registry) (uuidAt tsAt : Nat → String) :
    ∀ (msgs : List RawMsg) (i : Nat),
      (∀ (j : Nat) (hj : j < msgs.length), isGoodMsg reg (msgs.get ⟨j, hj⟩) = true) →
      (consumeLoop reg true uuidAt tsAt msgs i).length = msgs.length
  | [], _, _ => rfl
  | msg :: rest, i, hgood => by
    have h0 : isGoodMsg reg msg = true := hgood 0 (Nat.succ_pos _)
    obtain ⟨r, hr⟩ := processMessage_of_good reg msg (uuidAt i) (tsAt i) h0
    have ih := consumeLoop_length_all_good reg uuidAt tsAt rest (i + 1)
      (fun j hj => hgood (j + 1) (Nat.succ_lt_succ hj))
    simp [consumeLoop, hr, ih]

/-- Whatever one iteration publishes is in the run's published output. -/
theorem mem_consumeLoop (reg : Registry) (producerSet : Bool) (uuidAt tsAt : Nat → String) :
    ∀ (msgs : List RawMsg) (i j : Nat) (hj : j < msgs.length) (r : PredictionOutput),
      processMessage reg producerSet (msgs.get ⟨j, hj⟩)
        (uuidAt (i + j)) (tsAt (i + j)) = some r →
      r ∈ consumeLoop reg producerSet uuidAt tsAt msgs i
  | [], _, j, hj, _ => absurd hj (Nat.not_lt_zero j)
  | msg :: rest, i, 0, _, r => fun h => by
    have h0 : processMessage reg producerSet msg (uuidAt i) (tsAt i) = some r := by
      rw [Nat.add_zero] at h
      exact h
    simp only [consumeLoop, h0]
    exact List.mem_cons_self r _
  | msg :: rest, i, j + 1, hj, r => fun h => by
    have hj' : j < rest.length := Nat.lt_of_succ_lt_succ hj
    have h' : processMessage reg producerSet (rest.get ⟨j, hj'⟩)
        (uuidAt ((i + 1) + j)) (tsAt ((i + 1) + j)) = some r := by
      have harith : i + (j + 1) = (i + 1) + j := by omega
      rw [← harith]
      exact h
    have ih := mem_consumeLoop reg producerSet uuidAt tsAt rest (i + 1) j hj' r h'
    cases hp : processMessage reg producerSet msg (uuidAt i) (tsAt i) with
    | none =>
      simp only [consumeLoop, hp]
      exact ih
    | some r2 =>
      simp only [consumeLoop, hp]
      exact List.mem_cons_of_mem r2 ih

/-- A run with exactly one malformed message publishes one result per other
message. -/
theorem consumeLoop_length_one_bad (reg : Registry) (uuidAt tsAt : Nat → String) :
    ∀ (msgs : List RawMsg) (i k : Nat) (hk : k < msgs.length),
      isGoodMsg reg (msgs.get ⟨k, hk⟩) = false →
      (∀ (j : Nat) (hj : j < msgs.length), j ≠ k →
        isGoodMsg reg (msgs.get ⟨j, hj⟩) = true) →
      (consumeLoop reg true uuidAt tsAt msgs i).length = msgs.length - 1
  | [], _, k, hk => absurd hk (Nat.not_lt_zero k)
  | msg :: rest, i, 0, _ => fun hbad hgood => by
    have hnone := processMessage_of_bad reg msg (uuidAt i) (tsAt i) hbad
    have hrest : ∀ (j : Nat) (hj : j < rest.length),
        isGoodMsg reg (rest.get ⟨j, hj⟩) = true :=
      fun j hj => hgood (j + 1) (Nat.succ_lt_succ hj) (Nat.succ_ne_zero j)
    have hlen := consumeLoop_length_all_good reg uuidAt tsAt rest (i + 1) hrest
    simp [consumeLoop, hnone, hlen]
  | msg :: rest, i, k + 1, hk => fun hbad hgood => by
    have h0 : isGoodMsg reg msg = true :=
      hgood 0 (Nat.succ_pos _) (Ne.symm (Nat.succ_ne_zero k))
    obtain ⟨r, hr⟩ := processMessage_of_good reg msg (uuidAt i) (tsAt i) h0
    have hk' : k < rest.length := Nat.lt_of_succ_lt_succ hk
    have hbad' : isGoodMsg reg (rest.get ⟨k, hk'⟩) = false := hbad
    have hgood' : ∀ (j : Nat) (hj : j < rest.length), j ≠ k →
        isGoodMsg reg (rest.get ⟨j, hj⟩) = true :=
      fun j hj hne => hgood (j + 1) (Nat.succ_lt_succ hj) (by omega)
    have ih := consumeLoop_length_one_bad reg uuidAt tsAt rest (i + 1) k hk' hbad' hgood'
    have hpos : 0 < rest.length := Nat.lt_of_le_of_lt (Nat.zero_le k) hk'
    simp only [consumeLoop, hr, List.length_cons, ih]
    omega

/-- C2: in a finite inbound sequence whose message `k` is malformed (fails to
decode, lacks `model_id`/`features`, names an unknown model, or has a failing
capability) and whose other messages are well-formed, the loop publishes
exactly one result per well-formed message — the bad message neither
terminates the loop nor blocks any other message's result. -/
theorem stream_fault_isolation (reg : Registry) (msgs : List RawMsg) (k : Nat)
    (uuidAt tsAt : Nat → String) (hk : k < msgs.length)
    (hbad : isGoodMsg reg (msgs.get ⟨k, hk⟩) = false)
    (hgood : ∀ (j : Nat) (hj : j < msgs.length), j ≠ k →
      isGoodMsg reg (msgs.get ⟨j, hj⟩) = true) :
    (consumeLoop reg true uuidAt tsAt msgs 0).length = msgs.length - 1 ∧
    ∀ (j : Nat) (hj : j < msgs.length), j ≠ k →
      ∃ r, processMessage reg true (msgs.get ⟨j, hj⟩) (uuidAt j) (tsAt j) = some r ∧
        r ∈ consumeLoop reg true uuidAt tsAt msgs 0 := by
  constructor
  · exact consumeLoop_length_one_bad reg uuidAt tsAt msgs 0 k hk hbad hgood
  · intro j hj hne
    obtain ⟨r, hr⟩ := processMessage_of_good reg (msgs.get ⟨j, hj⟩)
      (uuidAt j) (tsAt j) (hgood j hj hne)
    refine ⟨r, hr, ?_⟩
    apply mem_consumeLoop reg true uuidAt tsAt msgs 0 j hj r
    simpa [Nat.zero_add] using hr

/-- A well-formed inbound message used by the C2 witness. -/
def goodMsgW : RawMsg :=
  RawMsg.decoded (Json.obj [("model_id", Json.str "anomaly_detection"),
    ("features", Json.obj [("x", Json.num 1)])])

/-- Witness for C2: three messages, the middle one undecodable; the run
publishes exactly two results, one per well-formed message. -/
theorem stream_fault_isolation_witness :
    (consumeLoop demoReg true (fun _ => "u") (fun _ => "t")
      [goodMsgW, RawMsg.undecodable, goodMsgW] 0).length =
      [goodMsgW, RawMsg.undecodable, goodMsgW].length - 1 ∧
    ∀ (j : Nat) (hj : j < [goodMsgW, RawMsg.undecodable, goodMsgW].length), j ≠ 1 →
      ∃ r, processMessage demoReg true
          ([goodMsgW, RawMsg.undecodable, goodMsgW].get ⟨j, hj⟩) "u" "t" = some r ∧
        r ∈ consumeLoop demoReg true (fun _ => "u") (fun _ => "t")
          [goodMsgW, RawMsg.undecodable, goodMsgW] 0 :=
  stream_fault_isolation demoReg [goodMsgW, RawMsg.undecodable, goodMsgW] 1
    (fun _ => "u") (fun _ => "t") (by decide) rfl (by decide)

/-- C10: a message that decodes and dispatches successfully while the
producer handle is unset publishes nothing and raises nothing — the computed
result is silently dropped and the loop continues with the next message. -/
theorem producer_unset_drops_result (reg : Registry) (payload mid features md : Json)
    (u t : String) (r : PredictionOutput) (rest : List RawMsg)
    (uuidAt tsAt : Nat → String) (i : Nat)
    (_hext : extractRequest payload = some (mid, features, md))
    (_hok : make_prediction reg mid features md u t = Except.ok r) :
    processMessage reg false (RawMsg.decoded payload) u t = none ∧
    consumeLoop reg false uuidAt tsAt (RawMsg.decoded payload :: rest) i =
      consumeLoop reg false uuidAt tsAt rest (i + 1) := by
  refine ⟨processMessage_producer_unset reg _ u t, ?_⟩
  simp [consumeLoop, processMessage_producer_unset]

/-- Witness for C10 on a concrete dispatchable message. -/
theorem producer_unset_drops_result_witness :
    processMessage demoReg false (RawMsg.decoded (Json.obj
      [("model_id", Json.str "anomaly_detection"),
       ("features", Json.obj [("x", Json.num 1)])])) "u" "t" = none ∧
    consumeLoop demoReg false (fun _ => "u") (fun _ => "t")
      (RawMsg.decoded (Json.obj [("model_id", Json.str "anomaly_detection"),
        ("features", Json.obj [("x", Json.num 1)])]) :: [RawMsg.undecodable]) 0 =
      consumeLoop demoReg false (fun _ => "u") (fun _ => "t") [RawMsg.undecodable] 1 :=
  producer_unset_drops_result demoReg
    (Json.obj [("model_id", Json.str "anomaly_detection"),
      ("features", Json.obj [("x", Json.num 1)])])
    (Json.str "anomaly_detection") (Json.obj [("x", Json.num 1)]) (Json.obj [])
    "u" "t"
    { prediction_id := "u", model_id := Json.str "anomaly_detection",
      predictions := Json.obj [("anomaly_score", Json.num 0)], timestamp := "t",
      input_features := Json.obj [("x", Json.num 1)], metadata := Json.obj [] }
    [RawMsg.undecodable] (fun _ => "u") (fun _ => "t") 0 rfl rfl

/-- C1 (amended): for a registered model, when both channels carry the same
explicit metadata value, the bus-channel and API-channel envelopes agree on
everything except the per-call `prediction_id` and `timestamp`. -/
theorem channels_agree_modulo_ids_given_same_metadata (reg : Registry) (s : String)
    (features md preds : Json) (cap : Capability) (bodyMid : String)
    (u1 t1 u2 t2 : String)
    (hs : Json.truthy (Json.str s) = true)
    (hf : features.truthy = true)
    (hl : lookupModel reg (Json.str s) = some cap)
    (hc : cap features = Except.ok preds) :
    ∃ rB rA,
      processMessage reg true
        (RawMsg.decoded (Json.obj
          [("model_id", Json.str s), ("features", features), ("metadata", md)]))
        u1 t1 = some rB ∧
      predict reg s { model_id := bodyMid, features := features, metadata := md }
        u2 t2 = Except.ok rA ∧
      shapeOf rB = shapeOf rA := by
  refine ⟨{ prediction_id := u1, model_id := Json.str s, predictions := preds,
            timestamp := t1, input_features := features, metadata := md },
          { prediction_id := u2, model_id := Json.str s, predictions := preds,
            timestamp := t2, input_features := features, metadata := md },
          ?_, ?_, rfl⟩
  · have hext : extractRequest (Json.obj
        [("model_id", Json.str s), ("features", features), ("metadata", md)]) =
        some (Json.str s, features, md) := by
      simp [extractRequest, getField, hs, hf]
    simp [processMessage, hext, make_prediction, hl, hc]
  · simp [predict, make_prediction, hl, hc]

/-- Witness for the amended C1 at the concrete registry with explicit
metadata on both channels. -/
theorem channels_agree_modulo_ids_given_same_metadata_witness :
    ∃ rB rA,
      processMessage demoReg true
        (RawMsg.decoded (Json.obj
          [("model_id", Json.str "anomaly_detection"),
           ("features", Json.obj [("x", Json.num 1)]),
           ("metadata", Json.obj [("source", Json.str "test")])]))
        "u1" "t1" = some rB ∧
      predict demoReg "anomaly_detection"
        { model_id := "ignored", features := Json.obj [("x", Json.num 1)],
          metadata := Json.obj [("source", Json.str "test")] } "u2" "t2" =
        Except.ok rA ∧
      shapeOf rB = shapeOf rA :=
  channels_agree_modulo_ids_given_same_metadata demoReg "anomaly_detection"
    (Json.obj [("x", Json.num 1)]) (Json.obj [("source", Json.str "test")])
    (Json.obj [("anomaly_score", Json.num 0)])
    (constCap (Json.obj [("anomaly_score", Json.num 0)])) "ignored"
    "u1" "t1" "u2" "t2" rfl rfl rfl rfl

/-- Counterexample for C1 as stated: for the same `(modelId, features)` pair
with metadata omitted on both channels, the bus channel defaults metadata to
the empty mapping while the API channel defaults it to `None`, so the
`metadata` fields of the two envelopes differ. -/
theorem omitted_metadata_channels_differ_cex :
    (processMessage demoReg true
        (RawMsg.decoded (Json.obj [("model_id", Json.str "anomaly_detection"),
          ("features", Json.obj [("x", Json.num 1)])])) "u1" "t1").map
      PredictionOutput.metadata = some (Json.obj []) ∧
    ((predict demoReg "anomaly_detection"
        { model_id := "anomaly_detection", features := Json.obj [("x", Json.num 1)],
          metadata := Json.null } "u2" "t2").toOption).map
      PredictionOutput.metadata = some Json.null ∧
    (((processMessage demoReg true
        (RawMsg.decoded (Json.obj [("model_id", Json.str "anomaly_detection"),
          ("features", Json.obj [("x", Json.num 1)])])) "u1" "t1").map
        (fun r => Json.isNull r.metadata)) !=
      (((predict demoReg "anomaly_detection"
        { model_id := "anomaly_detection", features := Json.obj [("x", Json.num 1)],
          metadata := Json.null } "u2" "t2").toOption).map
        (fun r => Json.isNull r.metadata))) = true :=
  ⟨rfl, rfl, rfl⟩

end MLService
